import Mathlib

/-!
Verification of the conversational agent in `src/agent.py` (class
`LangChainAgent` and the module-level `main`).  The agent is a
read-validate-complete-render loop: it reads one line, checks it against a
fixed exit-keyword list, trims it, sends it through a LangChain
`ConversationChain` backed by a local Ollama model, and renders the reply.

Shallow embedding conventions:
* Python strings are `List Char` (`Str`); `str.strip()` is `pyStrip`
  (ASCII whitespace, which covers every input the claims mention) and
  `str.lower()` is `pyLower`.
* The conversation memory (`ConversationBufferMemory`) is a list of
  role-tagged turns.  `conversation.predict` is the completion gateway; one
  call is modelled by a `GatewayResult`: `some reply` when the backend
  answers, `none` when it raises.  Per the LangChain chain contract
  (library code, outside this repository), a successful `predict` saves the
  (user input, raw reply) pair into the memory before returning, and a
  failing one saves nothing.
* Console output is modelled by the text rendered for the user in each
  iteration; visual styling (rich panels, colors, emoji) is presentation
  and is dropped.
-/

namespace AgentPy

/-- Python-style strings as explicit character lists. -/
abbrev Str := List Char

/-- The apostrophe character, spliced into text constants. -/
def apos : Char := Char.ofNat 39

/-- ASCII whitespace recognised by Python `str.strip()`:
space, tab, newline, carriage return, vertical tab, form feed. -/
def isPySpace (c : Char) : Bool :=
  (c == ' ') || (c == '\t') || (c == '\n') || (c == '\r') ||
  (c == '\x0b') || (c == '\x0c')

/-- Python `str.strip()`: drop whitespace from both ends. -/
def pyStrip (s : Str) : Str :=
  (s.dropWhile isPySpace).rdropWhile isPySpace

/-- Python `str.lower()` (ASCII case folding, as used on the exit check). -/
def pyLower (s : Str) : Str := s.map Char.toLower

/-- Exit keywords checked in `chat`: `['quit', 'exit', 'bye', 'goodbye']`. -/
def exitKeywords : List Str :=
  ["quit".data, "exit".data, "bye".data, "goodbye".data]

/-- Conversation roles.  The spec closes the role set to these three. -/
inductive Role
  | system
  | user
  | assistant
deriving DecidableEq

/-- One conversation turn: a role tag and its text. -/
structure Turn where
  role : Role
  content : Str
deriving DecidableEq

/-- Fallback reply returned by `think` when `conversation.predict` raises:
"I'm having trouble processing that right now. Could you try rephrasing?". -/
def fallbackMessage : Str :=
  "I".data ++ [apos] ++
  "m having trouble processing that right now. Could you try rephrasing?".data

/-- Notice rendered by `chat` when the perceived input is empty:
"I didn't catch that. Could you say something?". -/
def noticeText : Str :=
  "I didn".data ++ [apos] ++ "t catch that. Could you say something?".data

/-- Farewell rendered by `chat` when an exit keyword is entered. -/
def keywordFarewell : Str :=
  "Goodbye! It was great chatting with you!".data

/-- Farewell rendered by the `except KeyboardInterrupt` handler of `chat`. -/
def interruptFarewell : Str :=
  "Chat interrupted. Goodbye!".data

/-- Message rendered by the `except Exception` handler of `chat`
(the source text reads "And unexpected error occurred: ..."). -/
def unexpectedErrorText (e : Str) : Str :=
  "And unexpected error occurred: ".data ++ e

/-- Personality and instruction text built into the prompt template at
`__init__`, parameterized by the agent name (the part of the f-string
template before the `Previous conversation:` section). -/
def personaText (name : Str) : Str :=
  "You are ".data ++ name ++
  ", a helpful and friendly AI agent running locally.\n".data ++
  "Your personality:\n- Helpful and informative\n- Curious and engaging\n".data ++
  "- Honest about your limitations\n- Encouraging and supportive\n".data ++
  "- You love learning from humans\n".data ++
  "Key principles:\n- Keep responses conversational and natural\n".data ++
  "- Ask follow-up questions when appropriate\n- Admit when you don".data ++
  [apos] ++ "t know something\n".data ++
  "- Show genuine interest in what the human shares\n- Remember you".data ++
  [apos] ++ "re running locally (no internet access)\n".data

/-- Agent state after construction: the identity name, the personality
text frozen into the prompt template at `__init__`, and the
`ConversationBufferMemory` contents. -/
structure AgentState where
  name : Str
  persona : Str
  memory : List Turn
deriving DecidableEq

/-- State built by `LangChainAgent.__init__` once the Ollama connection
test succeeds: prompt template seeded from the name, empty memory. -/
def initAgent (name : Str) : AgentState :=
  { name := name, persona := personaText name, memory := [] }

/-- Result of one `conversation.predict` call: `some reply` on success,
`none` when the call raises. -/
abbrev GatewayResult := Option Str

/-- Embedding of `LangChainAgent.perceive`: strip the input, return `""`
when nothing remains. -/
def perceive (s : Str) : Str :=
  let processed := pyStrip s
  if processed = [] then [] else processed

/-- Embedding of `LangChainAgent.think` together with the memory effect of
`conversation.predict` (LangChain library code): on success the chain
appends the (user input, raw reply) pair to the buffer memory and `predict`
returns the raw reply, which `think` strips for display; when `predict`
raises, the chain appends nothing and the handler returns the fixed
fallback message.  Returns the new memory and the reply text. -/
def think (memory : List Turn) (userInput : Str) (gw : GatewayResult) :
    List Turn × Str :=
  match gw with
  | some reply =>
      (memory ++ [⟨Role.user, userInput⟩, ⟨Role.assistant, reply⟩],
       pyStrip reply)
  | none => (memory, fallbackMessage)

/-- What one iteration of the `while True` loop in `chat` did. -/
inductive StepKind
  | stopKeyword
  | emptyNotice
  | replied
deriving DecidableEq

/-- Observable outcome of one iteration of the `chat` loop: the state
afterwards, which branch ran, the text rendered to the user, and how many
`conversation.predict` calls were made. -/
structure StepResult where
  state : AgentState
  kind : StepKind
  rendered : Str
  gatewayCalls : Nat
deriving DecidableEq

/-- Embedding of one iteration of `LangChainAgent.chat`: the exit-keyword
check on the raw lowered input, then `perceive`, then (for accepted input)
`think` followed by `act`. -/
def chatStep (st : AgentState) (userInput : Str) (gw : GatewayResult) :
    StepResult :=
  if pyLower userInput ∈ exitKeywords then
    { state := st, kind := StepKind.stopKeyword,
      rendered := keywordFarewell, gatewayCalls := 0 }
  else if perceive userInput = [] then
    { state := st, kind := StepKind.emptyNotice,
      rendered := noticeText, gatewayCalls := 0 }
  else
    { state := { st with memory := (think st.memory (perceive userInput) gw).1 },
      kind := StepKind.replied,
      rendered := (think st.memory (perceive userInput) gw).2,
      gatewayCalls := 1 }

/-- An input is accepted (reaches `think`) when its lowered raw text is no
exit keyword and it is not whitespace-only. -/
def accepted (s : Str) : Prop :=
  pyLower s ∉ exitKeywords ∧ pyStrip s ≠ []

instance (s : Str) : Decidable (accepted s) := by
  unfold accepted; infer_instance

/-- The turn sequence the prompt template assembles for a `predict` call:
the fixed personality text as the leading system turn, then the buffered
memory, then the current user input (`prompt_template.format` lays these
out in exactly this order). -/
def replayedTurns (st : AgentState) (input : Str) : List Turn :=
  ⟨Role.system, st.persona⟩ :: (st.memory ++ [⟨Role.user, input⟩])

/-- One event the blocking `chat` loop can observe: a line of input
together with the gateway outcome its iteration would see, or a
`KeyboardInterrupt`. -/
inductive InEvent
  | line (input : Str) (gw : GatewayResult)
  | interrupt

/-- How a `chat` run ended. -/
inductive ExitKind
  | keyword
  | interrupted
deriving DecidableEq

/-- Observable outcome of running `chat` over a list of events: final
state, the texts rendered (replies, notices, farewells) in order, and how
the loop ended (`none` while still awaiting input). -/
structure RunResult where
  state : AgentState
  rendered : List Str
  exit : Option ExitKind
deriving DecidableEq

/-- Embedding of the `chat` loop: iterate `chatStep` until an exit keyword
breaks the loop; a `KeyboardInterrupt` is caught by the handler at the
bottom of `chat`, which renders a farewell and returns cleanly. -/
def chatRun (st : AgentState) : List InEvent → RunResult
  | [] => { state := st, rendered := [], exit := none }
  | InEvent.interrupt :: _ =>
      { state := st, rendered := [interruptFarewell],
        exit := some ExitKind.interrupted }
  | InEvent.line s gw :: rest =>
      let r := chatStep st s gw
      match r.kind with
      | StepKind.stopKeyword =>
          { state := r.state, rendered := [r.rendered],
            exit := some ExitKind.keyword }
      | _ =>
          let rr := chatRun r.state rest
          { state := rr.state, rendered := r.rendered :: rr.rendered,
            exit := rr.exit }

/-- Observable outcome of `main()`: whether the chat loop was entered,
whether a diagnostic was printed, and the process exit code. -/
structure MainResult where
  enteredLoop : Bool
  diagnosticPrinted : Bool
  exitCode : Nat
deriving DecidableEq

/-- Embedding of `main()`: construct the agent and run `chat`; `ctorOk`
abstracts whether the Ollama connection test in `__init__` succeeds.  A
construction exception is caught by the `except` block, which prints the
"Failed to start agent" diagnostic and falls off the end of `main`, so the
interpreter exits with code 0 on both paths. -/
def mainRun (ctorOk : Bool) : MainResult :=
  if ctorOk then
    { enteredLoop := true, diagnosticPrinted := false, exitCode := 0 }
  else
    { enteredLoop := false, diagnosticPrinted := true, exitCode := 0 }

/-! Helper lemmas about the string primitives. -/

/-- A whitespace character is unchanged by `Char.toLower`. -/
theorem toLower_of_space {c : Char} (h : isPySpace c = true) :
    Char.toLower c = c := by
  simp only [isPySpace, Bool.or_eq_true, beq_iff_eq] at h
  rcases h with ((((h | h) | h) | h) | h) | h <;> subst h <;> decide

/-- Stripping yields the empty string exactly when every character of the
input is whitespace (in particular when the input is empty). -/
theorem pyStrip_eq_nil_iff {s : Str} :
    pyStrip s = [] ↔ ∀ c ∈ s, isPySpace c := by
  unfold pyStrip
  rw [List.rdropWhile_eq_nil_iff]
  constructor
  · intro h c hc
    rcases List.mem_append.mp ((List.takeWhile_append_dropWhile
        (p := isPySpace) (l := s)) ▸ hc) with h1 | h1
    · exact List.mem_takeWhile_imp h1
    · exact h c h1
  · intro h c hc
    exact h c (((List.dropWhile_suffix isPySpace).sublist).subset hc)

/-- No whitespace-only string lowercases to a string containing a
non-whitespace character. -/
theorem not_mem_pyLower_of_space {s : Str} (h : ∀ c ∈ s, isPySpace c)
    {a : Char} (ha : isPySpace a = false) : a ∉ pyLower s := by
  intro hmem
  obtain ⟨c, hc, rfl⟩ := List.mem_map.mp hmem
  rw [toLower_of_space (h c hc)] at ha
  rw [h c hc] at ha
  simp at ha

/-- A whitespace-only input can never pass the exit-keyword check. -/
theorem pyLower_not_exit_of_strip_nil {s : Str} (h : pyStrip s = []) :
    pyLower s ∉ exitKeywords := by
  have hsp := pyStrip_eq_nil_iff.mp h
  intro hmem
  simp only [exitKeywords, List.mem_cons, List.not_mem_nil, or_false] at hmem
  rcases hmem with h1 | h1 | h1 | h1
  · exact not_mem_pyLower_of_space hsp (a := Char.ofNat 113) (by decide)
      (by rw [h1]; decide)
  · exact not_mem_pyLower_of_space hsp (a := Char.ofNat 101) (by decide)
      (by rw [h1]; decide)
  · exact not_mem_pyLower_of_space hsp (a := Char.ofNat 98) (by decide)
      (by rw [h1]; decide)
  · exact not_mem_pyLower_of_space hsp (a := Char.ofNat 103) (by decide)
      (by rw [h1]; decide)

/-- A list with no leading `p`-character keeps that property after a right
trim. -/
theorem dropWhile_rdropWhile_of_self {p : Char → Bool} {l : Str}
    (h : l.dropWhile p = l) :
    (l.rdropWhile p).dropWhile p = l.rdropWhile p := by
  obtain ⟨r, hr⟩ := List.rdropWhile_prefix p l
  rcases hu : l.rdropWhile p with _ | ⟨a, u⟩
  · rfl
  · rw [hu] at hr
    have hcons : l = a :: (u ++ r) := by rw [← hr, List.cons_append]
    have hne : ¬ p a := by
      intro hpa
      rw [hcons, List.dropWhile_cons_of_pos hpa] at h
      have hlen := (List.dropWhile_suffix (l := u ++ r) p).sublist.length_le
      rw [h] at hlen
      simp at hlen
    exact List.dropWhile_cons_of_neg hne

/-- Stripping is idempotent. -/
theorem pyStrip_idem (s : Str) : pyStrip (pyStrip s) = pyStrip s := by
  unfold pyStrip
  rw [dropWhile_rdropWhile_of_self (List.dropWhile_idempotent isPySpace s),
    List.rdropWhile_idempotent]

/-- The `if` in `perceive` is redundant: it returns the stripped input. -/
theorem perceive_eq_pyStrip (s : Str) : perceive s = pyStrip s := by
  by_cases h : pyStrip s = [] <;> simp [perceive, h]

/-! Characterization of the three branches of one `chat` iteration. -/

/-- Raw lowered input matching an exit keyword breaks the loop untouched. -/
theorem chatStep_exit (st : AgentState) {s : Str} (gw : GatewayResult)
    (h : pyLower s ∈ exitKeywords) :
    chatStep st s gw =
      { state := st, kind := StepKind.stopKeyword,
        rendered := keywordFarewell, gatewayCalls := 0 } := by
  simp [chatStep, h]

/-- Whitespace-only input renders the notice and changes nothing. -/
theorem chatStep_empty (st : AgentState) {s : Str} (gw : GatewayResult)
    (h : pyStrip s = []) :
    chatStep st s gw =
      { state := st, kind := StepKind.emptyNotice,
        rendered := noticeText, gatewayCalls := 0 } := by
  rw [chatStep, if_neg (pyLower_not_exit_of_strip_nil h),
    perceive_eq_pyStrip, if_pos h]

/-- Accepted input reaches `think` with the stripped text. -/
theorem chatStep_accepted (st : AgentState) {s : Str} (gw : GatewayResult)
    (h : accepted s) :
    chatStep st s gw =
      { state := { st with memory := (think st.memory (pyStrip s) gw).1 },
        kind := StepKind.replied,
        rendered := (think st.memory (pyStrip s) gw).2,
        gatewayCalls := 1 } := by
  rw [chatStep, perceive_eq_pyStrip, if_neg h.1, if_neg h.2]

/-! Unfolding lemmas for the loop and the construction invariant. -/

/-- A loop iteration whose branch is the exit keyword ends the run. -/
theorem chatRun_stop {st : AgentState} {s : Str} {gw : GatewayResult}
    {rest : List InEvent}
    (h : (chatStep st s gw).kind = StepKind.stopKeyword) :
    chatRun st (InEvent.line s gw :: rest) =
      { state := (chatStep st s gw).state,
        rendered := [(chatStep st s gw).rendered],
        exit := some ExitKind.keyword } := by
  simp only [chatRun, h]

/-- A loop iteration that does not hit the exit keyword continues the run. -/
theorem chatRun_go {st : AgentState} {s : Str} {gw : GatewayResult}
    {rest : List InEvent}
    (h : (chatStep st s gw).kind ≠ StepKind.stopKeyword) :
    chatRun st (InEvent.line s gw :: rest) =
      { state := (chatRun (chatStep st s gw).state rest).state,
        rendered := (chatStep st s gw).rendered ::
          (chatRun (chatStep st s gw).state rest).rendered,
        exit := (chatRun (chatStep st s gw).state rest).exit } := by
  cases hk : (chatStep st s gw).kind
  · exact absurd hk h
  · simp only [chatRun, hk]
  · simp only [chatRun, hk]

/-- Construction invariant: the persona frozen at `__init__` is intact and
the buffered memory holds no system turn. -/
def wellFormed (name : Str) (st : AgentState) : Prop :=
  st.persona = personaText name ∧ ∀ t ∈ st.memory, t.role ≠ Role.system

/-- The freshly constructed agent satisfies the invariant. -/
theorem wellFormed_init (name : Str) : wellFormed name (initAgent name) := by
  constructor
  · rfl
  · intro t ht
    simp [initAgent] at ht

/-- One loop iteration preserves the construction invariant: it only ever
appends user and assistant turns. -/
theorem wellFormed_chatStep {name : Str} {st : AgentState} (s : Str)
    (gw : GatewayResult) (h : wellFormed name st) :
    wellFormed name (chatStep st s gw).state := by
  by_cases h1 : pyLower s ∈ exitKeywords
  · rw [chatStep_exit st gw h1]; exact h
  · by_cases h2 : pyStrip s = []
    · rw [chatStep_empty st gw h2]; exact h
    · rw [chatStep_accepted st gw ⟨h1, h2⟩]
      refine ⟨h.1, ?_⟩
      intro t ht
      cases gw with
      | none => exact h.2 t ht
      | some r =>
          simp only [think, List.mem_append, List.mem_cons,
            List.not_mem_nil, or_false] at ht
          rcases ht with ht | ht | ht
          · exact h.2 t ht
          · subst ht; simp
          · subst ht; simp

/-- Any sequence of loop events preserves the construction invariant. -/
theorem wellFormed_chatRun {name : Str} (evs : List InEvent)
    {st : AgentState} (h : wellFormed name st) :
    wellFormed name (chatRun st evs).state := by
  induction evs generalizing st with
  | nil => exact h
  | cons e rest ih =>
      cases e with
      | interrupt => exact h
      | line s gw =>
          by_cases hk : (chatStep st s gw).kind = StepKind.stopKeyword
          · rw [chatRun_stop hk]
            exact wellFormed_chatStep s gw h
          · rw [chatRun_go hk]
            exact ih (wellFormed_chatStep s gw h)

/-- A rendered text counts as a farewell when it contains "Goodbye". -/
def isFarewell (s : Str) : Bool := decide ("Goodbye".data <:+: s)

/-! Claim theorems. -/

/-- C1 counterexample: with the accepted input "Hello" and a failing
gateway, the turn store does not grow by the claimed user-plus-assistant
pair — nothing is appended at all, because the chain only saves the
context after a successful predict call. -/
theorem append_regardless_failure_counterexample :
    (chatStep (initAgent "LocalBot".data) ("Hello".data)
        none).state.memory.length ≠
      (initAgent "LocalBot".data).memory.length + 2 := by
  decide

/-- C1 (amended): for every accepted input, when the gateway call succeeds
exactly one user turn followed by exactly one assistant turn (the raw
reply) are appended, both recorded by the time the call returns; when the
call fails, no turn is appended and the fallback message is rendered
without being stored. -/
theorem turn_appends_per_outcome (st : AgentState) (s : Str)
    (gw : GatewayResult) (h : accepted s) :
    (∀ r, gw = some r →
      (chatStep st s gw).state.memory =
        st.memory ++ [Turn.mk Role.user (pyStrip s),
          Turn.mk Role.assistant r]) ∧
    (gw = none →
      (chatStep st s gw).state.memory = st.memory ∧
      (chatStep st s gw).rendered = fallbackMessage) := by
  rw [chatStep_accepted st gw h]
  constructor
  · rintro r rfl
    simp [think]
  · rintro rfl
    exact ⟨by simp [think], by simp [think]⟩

/-- C1 witness: the success case at a concrete input and reply. -/
theorem turn_appends_per_outcome_witness :
    (chatStep (initAgent "LocalBot".data) ("Hello".data)
        (some "hi there".data)).state.memory =
      (initAgent "LocalBot".data).memory ++
        [Turn.mk Role.user (pyStrip ("Hello".data)),
         Turn.mk Role.assistant ("hi there".data)] :=
  (turn_appends_per_outcome (initAgent "LocalBot".data) ("Hello".data)
      (some "hi there".data) (by decide)).1 ("hi there".data) rfl

/-- C2 counterexample: the exit check runs on the raw, untrimmed line, so
the input " bye " is not recognised as an exit keyword — the iteration
calls the gateway instead of stopping the loop. -/
theorem exit_untrimmed_counterexample :
    (chatStep (initAgent "LocalBot".data) (" bye ".data)
        (some "hi".data)).kind ≠ StepKind.stopKeyword ∧
    (chatStep (initAgent "LocalBot".data) (" bye ".data)
        (some "hi".data)).gatewayCalls = 1 := by
  decide

/-- C2 (amended): exit-keyword matching is case-insensitive and exact on
the raw, untrimmed line: the loop stops exactly when the lowered input
equals one keyword (so "quit", "QUIT", "Exit" stop it, merely containing a
keyword or padding it with spaces does not), and a stopping iteration
renders the farewell without touching the turn store or the gateway. -/
theorem exit_keyword_match (st : AgentState) (s : Str) (gw : GatewayResult) :
    ((chatStep st s gw).kind = StepKind.stopKeyword ↔
        pyLower s ∈ exitKeywords) ∧
    (pyLower s ∈ exitKeywords →
      (chatStep st s gw).state = st ∧
      (chatStep st s gw).gatewayCalls = 0 ∧
      (chatStep st s gw).rendered = keywordFarewell ∧
      (chatRun st [InEvent.line s gw]).exit = some ExitKind.keyword) := by
  constructor
  · constructor
    · intro hk
      by_contra h1
      by_cases h2 : pyStrip s = []
      · rw [chatStep_empty st gw h2] at hk
        simp at hk
      · rw [chatStep_accepted st gw ⟨h1, h2⟩] at hk
        simp at hk
    · intro h1
      rw [chatStep_exit st gw h1]
  · intro h1
    have hstep := chatStep_exit st gw h1
    refine ⟨by rw [hstep], by rw [hstep], by rw [hstep], ?_⟩
    rw [chatRun_stop (by rw [hstep])]

/-- C2 witness: "QUIT" stops the loop with no gateway call. -/
theorem exit_keyword_match_witness :
    (chatStep (initAgent "LocalBot".data) ("QUIT".data) none).kind =
        StepKind.stopKeyword ∧
    (chatStep (initAgent "LocalBot".data) ("QUIT".data) none).gatewayCalls
        = 0 := by
  have h := exit_keyword_match (initAgent "LocalBot".data) ("QUIT".data) none
  exact ⟨h.1.mpr (by decide), (h.2 (by decide)).2.1⟩

/-- C3: any number of consecutive gateway failures on accepted inputs
produce exactly that many fallback replies, leave the turn store (and the
whole state) unchanged, and leave the loop awaiting input — no exception
ever escapes `think`. -/
theorem gateway_failures_all_contained (st : AgentState) (inputs : List Str)
    (h : ∀ s ∈ inputs, accepted s) :
    chatRun st (inputs.map fun s => InEvent.line s none) =
      { state := st,
        rendered := inputs.map fun _ => fallbackMessage,
        exit := none } := by
  induction inputs generalizing st with
  | nil => rfl
  | cons s rest ih =>
      have hs : accepted s := h s (by simp)
      have hrest : ∀ x ∈ rest, accepted x := fun x hx => h x (by simp [hx])
      have hstep := chatStep_accepted st none hs
      have hk : (chatStep st s none).kind ≠ StepKind.stopKeyword := by
        rw [hstep]; simp
      rw [List.map_cons, chatRun_go hk, hstep]
      simp only [think]
      rw [ih _ hrest]
      simp

/-- C3 witness: three consecutive failures yield three fallback replies. -/
theorem gateway_failures_all_contained_witness :
    chatRun (initAgent "LocalBot".data)
        ((["How are you?".data, "Hello again".data,
           "One more try".data]).map fun s => InEvent.line s none) =
      { state := initAgent "LocalBot".data,
        rendered := (["How are you?".data, "Hello again".data,
           "One more try".data]).map fun _ => fallbackMessage,
        exit := none } :=
  gateway_failures_all_contained (initAgent "LocalBot".data) _ (by decide)

/-- C4: an input that is empty after trimming leaves the state (hence the
turn store) unchanged, makes no gateway call, renders the did-not-catch
notice, and the loop keeps awaiting input. -/
theorem whitespace_input_no_effect (st : AgentState) (s : Str)
    (gw : GatewayResult) (h : pyStrip s = []) :
    (chatStep st s gw).state = st ∧
    (chatStep st s gw).gatewayCalls = 0 ∧
    (chatStep st s gw).rendered = noticeText ∧
    (chatRun st [InEvent.line s gw]).exit = none := by
  have hstep := chatStep_empty st gw h
  have hk : (chatStep st s gw).kind ≠ StepKind.stopKeyword := by
    rw [hstep]; simp
  exact ⟨by rw [hstep], by rw [hstep], by rw [hstep],
    by rw [chatRun_go hk]; rfl⟩

/-- C4 witness: three spaces change nothing and skip the gateway. -/
theorem whitespace_input_no_effect_witness :
    (chatStep (initAgent "LocalBot".data) ("   ".data)
        (some "hi".data)).state = initAgent "LocalBot".data ∧
    (chatStep (initAgent "LocalBot".data) ("   ".data)
        (some "hi".data)).gatewayCalls = 0 := by
  have h := whitespace_input_no_effect (initAgent "LocalBot".data)
      ("   ".data) (some "hi".data) (by decide)
  exact ⟨h.1, h.2.1⟩

/-- C5: after any sequence of chat-loop events the sequence replayed to
the gateway starts with the system turn carrying the personality text
created at construction from the agent name, contains exactly one system
turn, and the persona is unchanged. -/
theorem system_turn_invariant (name : Str) (events : List InEvent)
    (input : Str) :
    ((replayedTurns (chatRun (initAgent name) events).state input).head? =
        some (Turn.mk Role.system (personaText name))) ∧
    ((replayedTurns (chatRun (initAgent name) events).state input).countP
        (fun t => t.role == Role.system)) = 1 ∧
    (chatRun (initAgent name) events).state.persona = personaText name := by
  have hw := wellFormed_chatRun events (wellFormed_init name)
  refine ⟨?_, ?_, hw.1⟩
  · simp [replayedTurns, hw.1]
  · have hmem : ((chatRun (initAgent name) events).state.memory.countP
        (fun t => t.role == Role.system)) = 0 := by
      rw [List.countP_eq_zero]
      intro t ht
      simp only [beq_iff_eq]
      exact hw.2 t ht
    simp [replayedTurns, List.countP_cons, List.countP_append, hmem]

/-- C6: on a gateway failure no turn at all is appended for that
iteration; the fallback message is rendered directly and the loop simply
continues — the failure never propagates past the one turn. -/
theorem backend_failure_no_append (st : AgentState) (s : Str)
    (h : accepted s) :
    (chatStep st s none).state.memory = st.memory ∧
    (chatStep st s none).rendered = fallbackMessage ∧
    (chatRun st [InEvent.line s none]).exit = none := by
  have hstep := chatStep_accepted st none h
  have hk : (chatStep st s none).kind ≠ StepKind.stopKeyword := by
    rw [hstep]; simp
  refine ⟨?_, ?_, ?_⟩
  · rw [hstep]; simp [think]
  · rw [hstep]; simp [think]
  · rw [chatRun_go hk]; rfl

/-- C6 witness: the failure case at a concrete input. -/
theorem backend_failure_no_append_witness :
    (chatStep (initAgent "LocalBot".data) ("Hello".data) none).state.memory
        = (initAgent "LocalBot".data).memory ∧
    (chatStep (initAgent "LocalBot".data) ("Hello".data) none).rendered =
        fallbackMessage := by
  have h := backend_failure_no_append (initAgent "LocalBot".data)
      ("Hello".data) (by decide)
  exact ⟨h.1, h.2.1⟩

/-- C7: every accepted input makes exactly one gateway call in its
iteration — no retries, no extra model calls. -/
theorem one_gateway_call_per_turn (st : AgentState) (s : Str)
    (gw : GatewayResult) (h : accepted s) :
    (chatStep st s gw).gatewayCalls = 1 := by
  rw [chatStep_accepted st gw h]

/-- C7 witness: one call for the input "Hello". -/
theorem one_gateway_call_per_turn_witness :
    (chatStep (initAgent "LocalBot".data) ("Hello".data)
        (some "hi".data)).gatewayCalls = 1 :=
  one_gateway_call_per_turn (initAgent "LocalBot".data) ("Hello".data)
    (some "hi".data) (by decide)

/-- C8 counterexample: on a failed construction `main` catches the
exception and returns normally, so the process exit code is 0 — refuting
the non-zero exit code asserted by the claim. -/
theorem startup_exit_code_counterexample :
    ¬ ((mainRun false).diagnosticPrinted = true ∧
       (mainRun false).enteredLoop = false ∧
       (mainRun false).exitCode ≠ 0) := by
  decide

/-- C8 (amended): when construction fails the process prints a diagnostic
and never enters the chat loop, but terminates with exit code 0 because
`main` swallows the exception. -/
theorem startup_failure_behavior :
    (mainRun false).diagnosticPrinted = true ∧
    (mainRun false).enteredLoop = false ∧
    (mainRun false).exitCode = 0 := by
  decide

/-- C9: a KeyboardInterrupt stops the loop the same way an exit keyword
does: the state is untouched, a farewell (containing "Goodbye", exactly
like the keyword farewell) is rendered, the run ends cleanly, and the
rendered text is never the generic error-report text. -/
theorem interrupt_like_exit (st : AgentState) (rest : List InEvent)
    (s : Str) (gw : GatewayResult) (h : pyLower s ∈ exitKeywords) :
    (chatRun st (InEvent.interrupt :: rest) =
      { state := st, rendered := [interruptFarewell],
        exit := some ExitKind.interrupted }) ∧
    (chatRun st [InEvent.line s gw] =
      { state := st, rendered := [keywordFarewell],
        exit := some ExitKind.keyword }) ∧
    isFarewell interruptFarewell = true ∧
    isFarewell keywordFarewell = true ∧
    (∀ e : Str, interruptFarewell ≠ unexpectedErrorText e) := by
  refine ⟨rfl, ?_, by decide, by decide, ?_⟩
  · rw [chatRun_stop (by rw [chatStep_exit st gw h]), chatStep_exit st gw h]
  · intro e he
    have hcontr : (some 'C' : Option Char) = some 'A' := by
      calc (some 'C' : Option Char) = interruptFarewell.head? := rfl
      _ = (unexpectedErrorText e).head? := by rw [he]
      _ = some 'A' := rfl
    simp at hcontr

/-- C9 witness: an interrupt as the first event. -/
theorem interrupt_like_exit_witness :
    chatRun (initAgent "LocalBot".data) [InEvent.interrupt] =
      { state := initAgent "LocalBot".data,
        rendered := [interruptFarewell],
        exit := some ExitKind.interrupted } :=
  (interrupt_like_exit (initAgent "LocalBot".data) [] ("exit".data) none
      (by decide)).1

/-- C10: `perceive` equals whitespace trimming, is idempotent, and returns
the empty string exactly when the input is empty or whitespace-only. -/
theorem perceive_is_strip (s : Str) :
    perceive s = pyStrip s ∧
    perceive (perceive s) = perceive s ∧
    (perceive s = [] ↔ ∀ c ∈ s, isPySpace c) := by
  refine ⟨perceive_eq_pyStrip s, ?_, ?_⟩
  · rw [perceive_eq_pyStrip, perceive_eq_pyStrip, pyStrip_idem]
  · rw [perceive_eq_pyStrip]
    exact pyStrip_eq_nil_iff

end AgentPy
